import Mathlib

/-!
Shallow embedding of the lalos-mapp server (Fastify + MongoDB backend for a
geotagged-media map). The repository ships several variants of the same
server: a modular variant (src/server.js first part, registering
src/routes/posts.js and src/routes/upload.js) and monolithic variants
(the second part of src/server.js and the unnamed source part_000).
Where variants diverge, both are embedded and named with a `Route` suffix
(modular routes/*.js variant) or a `Mono` suffix (monolithic variant).

Numbers are modelled as `Rat` (JS numbers used by this code are exact
decimals well inside double precision), timestamps as `Int` milliseconds,
and JS `undefined` / `null` / value distinctions as explicit inductive
input types. Local wall-clock time is modelled as milliseconds with exact
86400000 ms days (daylight-saving shifts are outside the model).
-/

namespace LalosMapp

/-- Field of a JSON body that may be absent, null, or a string. -/
inductive StrIn : Type
  | absent
  | nullv
  | str (s : String)
deriving DecidableEq, Repr

/-- Field of a JSON body that may be absent, null, a number, or a
non-numeric value that coerces to NaN. -/
inductive NumIn : Type
  | absent
  | nullv
  | num (q : Rat)
  | nan
deriving DecidableEq, Repr

/-- JS `Number(x)` coercion followed by the `Number.isFinite` test:
`some q` is a finite result, `none` is NaN. `Number(undefined)` is NaN
and `Number(null)` is `0`. -/
def NumIn.toNumber : NumIn → Option Rat
  | .absent => none
  | .nullv => some 0
  | .num q => some q
  | .nan => none

/-- JS truthiness of a string-or-null-or-absent value followed by
`|| null`: only a non-empty string survives. -/
def StrIn.orNull : StrIn → Option String
  | .str s => if s.data.isEmpty then none else some s
  | _ => none

/-- JS `typeof x === "string"` guard: yields the string only when the
field holds an actual string (empty string included). -/
def StrIn.asString : StrIn → Option String
  | .str s => some s
  | _ => none

/-- JS `Math.round`: round half toward positive infinity, that is the
floor of q plus one half; for q with numerator n and denominator d this
is the floor division of 2n plus d by 2d. -/
def jsRound (q : Rat) : Int := (2 * q.num + q.den).fdiv (2 * q.den)

/-- JS falsiness test for an optional string (`!x`): true for absent,
null and the empty string. -/
def strFalsy : Option String → Bool
  | none => true
  | some s => s.data.isEmpty

/-- Whitespace class stripped by the JS String trim method. -/
def isJsSpace (c : Char) : Bool := c.isWhitespace

/-- JS trim on a character list: strip whitespace from both ends. -/
def jsTrimList (cs : List Char) : List Char :=
  ((cs.dropWhile isJsSpace).reverse.dropWhile isJsSpace).reverse

/-- JS `s.trim()`. -/
def jsTrim (s : String) : String := String.mk (jsTrimList s.data)

/-- JS `s.slice(0, n)`. -/
def jsSlice (n : Nat) (s : String) : String := String.mk (s.data.take n)

/-- JS toLowerCase, character by character. -/
def jsToLower (s : String) : String := String.mk (s.data.map Char.toLower)

/-- Decimal value of an all-digit character run, as JS Number parses the
captured regex group. -/
def digitsToNat (cs : List Char) : Nat :=
  cs.foldl (fun acc c => acc * 10 + (c.toNat - 48)) 0

/-- One stored post document, as built by the create handlers.
`locationLng` and `locationLat` are the GeoJSON point coordinates. -/
structure PostDoc : Type where
  mediaType : String
  url : Option String
  ytId : Option String
  comment : Option String
  natSize : Option (Rat × Rat)
  pxAtPlace : Option Rat
  userCenter : Option (Rat × Rat)
  deviceId : Option String
  locationLng : Rat
  locationLat : Rat
  createdAt : Int
  updatedAt : Int
  idemKey : Option String
deriving DecidableEq, Repr

/-! ## RetentionSweeper (monolithic server.js, functions last3am and
cleanupUploads) -/

/-- Milliseconds in one local day. -/
def dayMs : Int := 86400000

/-- Milliseconds in one hour. -/
def hourMs : Int := 3600000

/-- Embeds `last3am()` from server.js: `setHours(3,0,0,0)` pins the
clock to 03:00:00.000 of the current local day, and if `now` is before
that instant the date is moved back one day. `nowMs` is local-clock
milliseconds. -/
def last3am (nowMs : Int) : Int :=
  let three := nowMs - nowMs % dayMs + 3 * hourMs
  if nowMs < three then three - dayMs else three

/-- Embeds the leading-digits-then-dash regex of `cleanupUploads` plus
`Number(m[1])`: the maximal leading run of decimal digits, accepted only
when it is non-empty and immediately followed by a dash. -/
def parseTsPrefix (name : String) : Option Nat :=
  let digits := name.data.takeWhile Char.isDigit
  if digits.isEmpty then none
  else if (name.data.drop digits.length).head? = some '-' then
    some (digitsToNat digits)
  else none

/-- Embeds the per-file decision of `cleanupUploads(now)`: a stored name
is unlinked exactly when its parsed leading timestamp is strictly below
the `last3am` cutoff. Names without the timestamp-prefix shape are
skipped by the `continue` branches. -/
def sweepDeletes (nowMs : Int) (name : String) : Bool :=
  match parseTsPrefix name with
  | none => false
  | some ts => (ts : Int) < last3am nowMs

/-- Embeds `cleanupUploads` over a directory listing: the sublist of
names that get deleted. -/
def cleanupUploads (nowMs : Int) (names : List String) : List String :=
  names.filter (sweepDeletes nowMs)

/-! ## PostStore create (modular variant, src/routes/posts.js POST
/api/posts) -/

/-- Request body of the modular create handler, with each field holding
the raw JSON shape the handler inspects. `natSizeW`/`natSizeH` are
`some q` exactly when `natSize` is a truthy object whose `w`/`h` pass
`Number.isFinite` with value `q`; `natSizeObj` records whether `natSize`
itself is truthy. Same convention for `userCenter*`. -/
structure CreateBodyR : Type where
  lng : NumIn
  lat : NumIn
  mediaType : StrIn
  url : StrIn
  ytId : StrIn
  comment : StrIn
  pxAtPlace : NumIn
  natSizeObj : Bool
  natSizeW : Option Rat
  natSizeH : Option Rat
  deviceId : StrIn
  userCenterObj : Bool
  userCenterLng : Option Rat
  userCenterLat : Option Rat
  idemKey : StrIn
deriving Repr

/-- Outcome of a create handler before the store insert. -/
inductive CreateResult : Type
  | badRequest (msg : String)
  | created (doc : PostDoc)
deriving DecidableEq, Repr

/-- The `created` discriminant of a `CreateResult`. -/
def CreateResult.isCreated : CreateResult → Bool
  | .created _ => true
  | .badRequest _ => false

/-- Embeds the modular POST /api/posts handler body (src/routes/posts.js
lines 38 to 84) up to the insert: `cleanNum` on lng/lat, mediaType
defaulted to img and lowercased, the mediaType whitelist, the
url-required-for-non-YouTube check, comment trimmed then sliced to 15,
natSize rounded, and the document assembly. There is no check that
mediaType yt carries a ytId. `t` is the value of `now()`. -/
def createRoute (b : CreateBodyR) (t : Int) : CreateResult :=
  match b.lng.toNumber, b.lat.toNumber with
  | some lng, some lat =>
    let mediaType := jsToLower ((b.mediaType.orNull).getD "img")
    let url := b.url.orNull
    let ytId := b.ytId.orNull
    if mediaType ≠ "img" ∧ mediaType ≠ "yt" ∧ mediaType ≠ "vid" ∧ mediaType ≠ "gif" then
      .badRequest "invalid mediaType"
    else if mediaType ≠ "yt" ∧ url = none then
      .badRequest "url required for non-YouTube media"
    else
      .created {
        mediaType := mediaType
        url := if mediaType = "yt" then none else url
        ytId := if mediaType = "yt" then ytId else none
        comment := (b.comment.asString).map (fun s => jsSlice 15 (jsTrim s))
        natSize :=
          if b.natSizeObj then
            match b.natSizeW, b.natSizeH with
            | some w, some h => some ((jsRound w : Rat), (jsRound h : Rat))
            | _, _ => none
          else none
        pxAtPlace := b.pxAtPlace.toNumber
        userCenter :=
          if b.userCenterObj then
            match b.userCenterLng, b.userCenterLat with
            | some x, some y => some (x, y)
            | _, _ => none
          else none
        deviceId := b.deviceId.orNull
        locationLng := lng
        locationLat := lat
        createdAt := t
        updatedAt := t
        idemKey := b.idemKey.asString }
  | _, _ => .badRequest "lng/lat required"

/-! ## IdempotencyGuard: partial unique index on idemKey (src/server.js
Posts.createIndex with partialFilterExpression idemKey of type string)
and the duplicate-key catch handler of the modular create route. -/

/-- Whether some stored document already carries this idempotency key.
The partial filter restricts the unique index to documents where
`idemKey` has BSON type string, so `none` keys never participate. -/
def hasIdemKey (store : List PostDoc) (k : String) : Bool :=
  store.any (fun d => d.idemKey = some k)

/-- Embeds `Posts.insertOne` under the partial unique index on
`idemKey`: an insert whose string key is already present fails with the
storage duplicate-key error (code 11000) and leaves the store
unchanged; any other insert appends. -/
def insertPost (store : List PostDoc) (d : PostDoc) :
    Except Unit (List PostDoc) :=
  match d.idemKey with
  | some k => if hasIdemKey store k then .error () else .ok (store ++ [d])
  | none => .ok (store ++ [d])

/-- HTTP-level reply of the create route: status code, optional body
code field, and body error label. -/
structure CreateReply : Type where
  status : Nat
  code : Option String
  error : Option String
deriving DecidableEq, Repr

/-- Embeds the whole modular POST /api/posts round trip including the
catch handler (src/routes/posts.js lines 85 to 91): validation failure
replies 400; a duplicate-key storage error (code 11000) replies status
500 with body code 11000 and error label Internal Server Error; success
replies 201. Returns the reply and the store after the call. -/
def createRouteFull (store : List PostDoc) (b : CreateBodyR) (t : Int) :
    CreateReply × List PostDoc :=
  match createRoute b t with
  | .badRequest m => (⟨400, none, some m⟩, store)
  | .created doc =>
    match insertPost store doc with
    | .ok store2 => (⟨201, none, none⟩, store2)
    | .error _ => (⟨500, some "11000", some "Internal Server Error"⟩, store)

/-! ## PostStore create (monolithic variant, part_000 POST /api/posts,
schema-validated body) -/

/-- Request body of the monolithic create handler after Fastify schema
validation: lng, lat and mediaType are required numbers and an enum
string; the remaining fields are string-or-null per the schema, with
absent fields already defaulted to null by the handler destructuring. -/
structure CreateBodyM : Type where
  lng : Rat
  lat : Rat
  mediaType : String
  url : Option String
  ytId : Option String
  comment : Option String
  natSize : Option (Rat × Rat)
  pxAtPlace : Option Rat
  userCenter : Option (Rat × Rat)
  deviceId : Option String
  headerDeviceId : Option String
deriving Repr

/-- Embeds capComment from part_000: null-coalesce to the empty string,
slice to 15 code units, trim, and collapse a falsy (empty) result to
null. -/
def capComment (s : Option String) : Option String :=
  let r := jsTrim (jsSlice 15 (s.getD ""))
  if r.data.isEmpty then none else some r

/-- Embeds the monolithic POST /api/posts handler of part_000 (lines 213
to 241): rejects mediaType yt without a truthy ytId and any other
mediaType without a truthy url, resolves deviceId from the body or the
x-device-id header sliced to 128, and assembles the document (natSize
kept only when both components are truthy). The schema has already
constrained mediaType to the img/gif/vid/yt enum. -/
def createMono (b : CreateBodyM) (t : Int) : CreateResult :=
  if b.mediaType = "yt" ∧ strFalsy b.ytId then
    .badRequest "ytId required for mediaType=yt"
  else if b.mediaType ≠ "yt" ∧ strFalsy b.url then
    .badRequest "url required for img/gif/vid"
  else
    let devRaw := if strFalsy b.deviceId then
        (if strFalsy b.headerDeviceId then "" else b.headerDeviceId.getD "")
      else b.deviceId.getD ""
    let devId := if (jsSlice 128 devRaw).data.isEmpty then none
      else some (jsSlice 128 devRaw)
    .created {
      mediaType := b.mediaType
      url := b.url
      ytId := b.ytId
      comment := capComment b.comment
      natSize :=
        match b.natSize with
        | some (w, h) => if w ≠ 0 ∧ h ≠ 0 then some (w, h) else none
        | none => none
      pxAtPlace := b.pxAtPlace
      userCenter := b.userCenter
      deviceId := devId
      locationLng := b.lng
      locationLat := b.lat
      createdAt := t
      updatedAt := t
      idemKey := none }

/-! ## PostStore update (modular variant, src/routes/posts.js PATCH
/api/posts/:id) -/

/-- Field of a JSON body that may be absent, null, or a lng/lat pair. -/
inductive CtrIn : Type
  | absent
  | nullv
  | pt (lng lat : Rat)
deriving DecidableEq, Repr

/-- Request body of the modular PATCH handler. `natSizeObj` is the
truthiness of `p.natSize`; `natSizeW`/`natSizeH` are `some q` exactly
when the corresponding component passes `Number.isFinite`. -/
structure PatchBodyR : Type where
  comment : StrIn
  pxAtPlace : NumIn
  url : StrIn
  mediaType : StrIn
  natSizeObj : Bool
  natSizeW : Option Rat
  natSizeH : Option Rat
deriving Repr

/-- Embeds the modular PATCH /api/posts/:id set construction and its
application to the matched document (src/routes/posts.js lines 108 to
122). Note the handler branches: a present comment that is not a string
is stored as null; pxAtPlace is guarded by Number.isFinite applied to
the JS Number coercion, under which an explicit null coerces to 0 and is
stored as Math.round(0); a present mediaType is overwritten after
defaulting falsy values to img and lowercasing; natSize is replaced only
when it is a truthy object with two finite components. `t` is `now()`. -/
def patchRoute (doc : PostDoc) (p : PatchBodyR) (t : Int) : PostDoc where
  mediaType :=
    match p.mediaType with
    | .absent => doc.mediaType
    | .nullv => "img"
    | .str s => jsToLower (if s.data.isEmpty then "img" else s)
  url :=
    match p.url with
    | .absent => doc.url
    | x => x.orNull
  ytId := doc.ytId
  comment :=
    match p.comment with
    | .absent => doc.comment
    | .nullv => none
    | .str s => some (jsSlice 15 (jsTrim s))
  natSize :=
    if p.natSizeObj then
      match p.natSizeW, p.natSizeH with
      | some w, some h => some ((jsRound w : Rat), (jsRound h : Rat))
      | _, _ => doc.natSize
    else doc.natSize
  pxAtPlace :=
    match p.pxAtPlace.toNumber with
    | some q => some ((jsRound q : Int) : Rat)
    | none => doc.pxAtPlace
  userCenter := doc.userCenter
  deviceId := doc.deviceId
  locationLng := doc.locationLng
  locationLat := doc.locationLat
  createdAt := doc.createdAt
  updatedAt := t
  idemKey := doc.idemKey

/-! ## PostStore update (monolithic variant, part_000 PATCH
/api/posts/:id and its POST /api/posts/:id/update alias; the second
server.js variant has the identical handler body) -/

/-- Request body of the monolithic PATCH handler after schema validation
(additionalProperties false: only these five fields can appear). -/
structure PatchBodyM : Type where
  comment : StrIn
  pxAtPlace : NumIn
  url : StrIn
  ytId : StrIn
  userCenter : CtrIn
deriving Repr

/-- Embeds the monolithic PATCH set construction and its application to
the matched document (part_000 lines 264 to 277): each field is touched
only when present; comment goes through capComment, pxAtPlace through a
typeof-number test (null becomes null), and url, ytId and userCenter
through or-null. `mediaType`, `location` and `natSize` are not part of
the schema and cannot be touched. `t` is the new Date() value. -/
def patchMono (doc : PostDoc) (p : PatchBodyM) (t : Int) : PostDoc where
  mediaType := doc.mediaType
  url :=
    match p.url with
    | .absent => doc.url
    | x => x.orNull
  ytId :=
    match p.ytId with
    | .absent => doc.ytId
    | x => x.orNull
  comment :=
    match p.comment with
    | .absent => doc.comment
    | .nullv => capComment none
    | .str s => capComment (some s)
  natSize := doc.natSize
  pxAtPlace :=
    match p.pxAtPlace with
    | .absent => doc.pxAtPlace
    | .num q => some q
    | _ => none
  userCenter :=
    match p.userCenter with
    | .absent => doc.userCenter
    | .nullv => none
    | .pt x y => some (x, y)
  deviceId := doc.deviceId
  locationLng := doc.locationLng
  locationLat := doc.locationLat
  createdAt := doc.createdAt
  updatedAt := t
  idemKey := doc.idemKey

/-! ## PostStore point lookup (GET /api/posts/:id, both variants) -/

/-- Hexadecimal digit test, as the BSON ObjectId parser accepts it. -/
def isHexChar (c : Char) : Bool :=
  c.isDigit ∨ ( 'a' ≤ c ∧ c ≤ 'f' ) ∨ ( 'A' ≤ c ∧ c ≤ 'F' )

/-- Embeds ObjectId.isValid of the mongodb driver on strings (also the
success condition of the try/catch around new ObjectId in the modular
parseId): a 12-character string or a 24-character hex string. -/
def isValidObjectId (s : String) : Bool :=
  s.length = 12 ∨ (s.length = 24 ∧ s.data.all isHexChar)

/-- Outcome of the GET /api/posts/:id handlers. -/
inductive GetResult : Type
  | badRequest (msg : String)
  | notFound
  | found (d : PostDoc)
deriving DecidableEq, Repr

/-- Embeds the modular GET /api/posts/:id handler (src/routes/posts.js
lines 95 to 101): a malformed id replies 400 bad id; a well-formed id
with no matching document replies 404 not found. The store is a partial
map from id strings to documents. -/
def getByIdRoute (store : String → Option PostDoc) (id : String) : GetResult :=
  if isValidObjectId id then
    match store id with
    | none => .notFound
    | some d => .found d
  else .badRequest "bad id"

/-- Embeds the monolithic GET /api/posts/:id handler (part_000 lines 204
to 210): same structure, with the 400 reply labelled invalid id. -/
def getByIdMono (store : String → Option PostDoc) (id : String) : GetResult :=
  if isValidObjectId id then
    match store id with
    | none => .notFound
    | some d => .found d
  else .badRequest "invalid id"

/-! ## Geospatial and recency queries. The cursor pipeline
find(filter).sort(...).limit(n).toArray() is modelled as filter,
stable sort, take. The great-circle distance computed by the 2dsphere
index is external to the repository and enters as an explicit `dist`
function; `$maxDistance` is an inclusive upper bound. The mongodb driver
only accepts integral limit arguments, so embedded limit inputs carry
`Int`; a negative cursor limit behaves like its absolute value (single
batch), hence `Int.natAbs` at the take. -/

/-- Field of a query string that JS Number-coerces to an integer, or is
absent, null, or NaN-producing. -/
inductive IntIn : Type
  | absent
  | nullv
  | int (n : Int)
  | nan
deriving DecidableEq, Repr

/-- JS `Number(x)` on an integral input: `some n` when finite, `none`
when NaN. `Number(undefined)` is NaN and `Number(null)` is `0`. -/
def IntIn.toNumber : IntIn → Option Int
  | .absent => none
  | .nullv => some 0
  | .int n => some n
  | .nan => none

/-- JS `Number(x) || d`: the default replaces NaN and 0 (both falsy). -/
def jsOrInt (x : IntIn) (d : Int) : Int :=
  match x.toNumber with
  | none => d
  | some n => if n = 0 then d else n

/-- JS `Number(x) || d` over rationals, as used for radius inputs. -/
def jsOrRat (x : NumIn) (d : Rat) : Rat :=
  match x.toNumber with
  | none => d
  | some q => if q = 0 then d else q

/-- Newest-first order used by sort createdAt minus one. -/
def createdDesc (a b : PostDoc) : Prop := b.createdAt ≤ a.createdAt

instance : DecidableRel createdDesc :=
  fun a b => inferInstanceAs (Decidable (b.createdAt ≤ a.createdAt))

instance : IsTotal PostDoc createdDesc :=
  ⟨fun a b => le_total b.createdAt a.createdAt⟩

instance : IsTrans PostDoc createdDesc :=
  ⟨fun _ _ _ h1 h2 => le_trans h2 h1⟩

/-- Nearest-first order on a fixed distance function, the row order a
plain $near query returns. -/
def distAsc (dist : PostDoc → Rat) (a b : PostDoc) : Prop := dist a ≤ dist b

instance (dist : PostDoc → Rat) : DecidableRel (distAsc dist) :=
  fun a b => inferInstanceAs (Decidable (dist a ≤ dist b))

/-- Stable sort by createdAt descending, the effect of sort createdAt
minus one on a cursor. -/
def sortNewestFirst (posts : List PostDoc) : List PostDoc :=
  List.insertionSort createdDesc posts

/-- Embeds the modular GET /api/posts/near effective radius
(src/routes/posts.js line 138): cleanNum or-default 5000, clamped
between 50 and 5000. -/
def nearRadiusRoute (radiusMeters : NumIn) : Rat :=
  min 5000 (max 50 (jsOrRat radiusMeters 5000))

/-- Embeds the modular GET /api/posts/near effective limit
(src/routes/posts.js line 139): Number or-default 80, clamped between 1
and 200. -/
def nearLimitRoute (limit : IntIn) : Int :=
  min 200 (max 1 (jsOrInt limit 80))

/-- Embeds the monolithic GET /api/posts/near effective radius
(part_000 line 173): Number or-default 1609, capped above at 5000, with
no lower clamp. A schema default of 1609 applies when the field is
absent, which coincides with the or-default on the NaN coercion. -/
def nearRadiusMono (radiusMeters : NumIn) : Rat :=
  min (jsOrRat radiusMeters 1609) 5000

/-- Embeds the monolithic GET /api/posts/near effective limit (part_000
line 174): Number or-default 50, capped above at 200, no lower clamp. -/
def nearLimitMono (limit : IntIn) : Int :=
  min (jsOrInt limit 50) 200

/-- Outcome of a list-returning route that may reject its query. -/
inductive RowsResult : Type
  | badRequest (msg : String)
  | rows (out : List PostDoc)
deriving DecidableEq, Repr

/-- Embeds the modular GET /api/posts/near handler (src/routes/posts.js
lines 134 to 155): clamp radius and limit, reject non-finite lng/lat,
then run the $near query re-sorted by createdAt descending and cut at
the limit. -/
def nearRoute (posts : List PostDoc) (dist : PostDoc → Rat)
    (lngQ latQ : NumIn) (radiusMeters : NumIn) (limit : IntIn) : RowsResult :=
  let r := nearRadiusRoute radiusMeters
  let lim := nearLimitRoute limit
  match lngQ.toNumber, latQ.toNumber with
  | some _, some _ =>
    .rows ((sortNewestFirst (posts.filter (fun p => dist p ≤ r))).take lim.natAbs)
  | _, _ => .badRequest "lng/lat required"

/-- Embeds the monolithic GET /api/posts/near handler (part_000 lines
171 to 184): the schema requires numeric lng/lat, the $near query
returns distance order (nearest first) and is cut at the limit. -/
def nearMono (posts : List PostDoc) (dist : PostDoc → Rat)
    (radiusMeters : NumIn) (limit : IntIn) : List PostDoc :=
  let r := nearRadiusMono radiusMeters
  let lim := nearLimitMono limit
  ((List.insertionSort (distAsc dist) (posts.filter (fun p => dist p ≤ r))).take
    lim.natAbs)

/-- Embeds the modular GET /api/posts/recent handler (src/routes/posts.js
lines 158 to 162): limit Number or-default 9 clamped between 1 and 200,
query find of everything sorted createdAt descending, cut at the limit.
No createdAt filter of any kind is applied. -/
def recentRoute (posts : List PostDoc) (limit : IntIn) : List PostDoc :=
  let lim := min 200 (max 1 (jsOrInt limit 9))
  (sortNewestFirst posts).take lim.natAbs

/-- Embeds the monolithic GET /api/posts/recent handler (server.js lines
459 to 466): limit Number or-default 200 capped at 400, filter createdAt
at or after the last3am cutoff, sort createdAt descending, cut at the
limit. -/
def recentMono (posts : List PostDoc) (limit : IntIn) (nowMs : Int) :
    List PostDoc :=
  let lim := min (jsOrInt limit 200) 400
  ((sortNewestFirst (posts.filter
    (fun p => decide (last3am nowMs ≤ p.createdAt)))).take lim.natAbs)

/-! ## MediaUploadManager (monolithic part_000 POST /api/upload with the
ALLOW whitelist and EXT map, and the modular src/routes/upload.js POST
/api/upload which infers the extension from the filename) -/

/-- Embeds the EXT map of part_000 lines 32 to 35; its domain coincides
with the ALLOW set of lines 28 to 31, so membership in the map is the
whitelist test. -/
def EXT (mime : String) : Option String :=
  if mime = "image/jpeg" then some "jpg"
  else if mime = "image/png" then some "png"
  else if mime = "image/gif" then some "gif"
  else if mime = "image/webp" then some "webp"
  else if mime = "video/mp4" then some "mp4"
  else if mime = "video/webm" then some "webm"
  else if mime = "video/ogg" then some "ogv"
  else none

/-- Embeds the ALLOW whitelist of part_000 lines 28 to 31. -/
def ALLOW (mime : String) : Bool := (EXT mime).isSome

/-- Outcome of an upload handler: 400 without a file, 415 for a
disallowed mime, or a stored file whose name ends in the resolved
extension. -/
inductive UploadResult : Type
  | noFile
  | unsupported (mime : String)
  | stored (ext : String)
deriving DecidableEq, Repr

/-- The stored discriminant of an upload outcome. -/
def UploadResult.isStored : UploadResult → Bool
  | .stored _ => true
  | _ => false

/-- Embeds the monolithic POST /api/upload handler (part_000 lines 149
to 169): missing file replies 400; a mimetype outside ALLOW replies 415
before any write; otherwise the file is written under a name ending in
the EXT-mapped extension. -/
def uploadMono (hasFile : Bool) (mimetype : Option String) : UploadResult :=
  if hasFile = false then .noFile
  else
    let mime := mimetype.getD ""
    if ALLOW mime = false then .unsupported mime
    else .stored ((EXT mime).getD "bin")

/-- Splits a character list at its last dot: before and after parts. -/
def afterLastDot : List Char → Option (List Char × List Char)
  | [] => none
  | c :: rest =>
    match afterLastDot rest with
    | some (pre, post) => some (c :: pre, post)
    | none => if c = '.' then some ([], rest) else none

/-- Embeds path.extname followed by removing the dot, as the modular
upload route computes it: the suffix after the last dot, empty when
there is no dot or when the dot is the leading character (hidden-file
rule of path.extname). -/
def extnameNoDot (name : String) : String :=
  match afterLastDot name.data with
  | none => ""
  | some (pre, post) => if pre.isEmpty then "" else String.mk post

/-- Embeds the modular POST /api/upload handler (src/routes/upload.js
lines 11 to 37): missing file replies 400; otherwise the extension is
guessed from the lowercased original filename with fallback bin, the
mimetype is never consulted, and the file is always written. -/
def uploadRoute (hasFile : Bool) (filename : Option String) : UploadResult :=
  if hasFile = false then .noFile
  else
    let fromName := extnameNoDot (jsToLower (filename.getD ""))
    let ext := if fromName.data.isEmpty then "bin" else fromName
    .stored ext

/-! ## Concrete fixtures used by closed counterexamples and witnesses -/

/-- Document payload of a create outcome, when present. -/
def CreateResult.docOf : CreateResult → Option PostDoc
  | .created d => some d
  | .badRequest _ => none

/-- An ordinary image create body for the modular route, parameterised
by the idemKey field. -/
def imgBody (key : StrIn) : CreateBodyR where
  lng := .num 1
  lat := .num 2
  mediaType := .str "img"
  url := .str "/uploads/a.jpg"
  ytId := .absent
  comment := .absent
  pxAtPlace := .absent
  natSizeObj := false
  natSizeW := none
  natSizeH := none
  deviceId := .absent
  userCenterObj := false
  userCenterLng := none
  userCenterLat := none
  idemKey := key

/-- A modular-route create body with mediaType yt and no ytId. -/
def ytNoIdBody : CreateBodyR where
  lng := .num 1
  lat := .num 2
  mediaType := .str "yt"
  url := .absent
  ytId := .absent
  comment := .absent
  pxAtPlace := .absent
  natSizeObj := false
  natSizeW := none
  natSizeH := none
  deviceId := .absent
  userCenterObj := false
  userCenterLng := none
  userCenterLat := none
  idemKey := .absent

/-- A modular-route create body whose comment is a single blank. -/
def blankCommentBody : CreateBodyR :=
  { imgBody .absent with comment := .str " " }

/-- A monolithic create body with mediaType yt and no ytId. -/
def ytNoIdBodyM : CreateBodyM where
  lng := 1
  lat := 2
  mediaType := "yt"
  url := none
  ytId := none
  comment := none
  natSize := none
  pxAtPlace := none
  userCenter := none
  deviceId := none
  headerDeviceId := none

/-- A monolithic create body with mediaType img and no url. -/
def imgNoUrlBodyM : CreateBodyM :=
  { ytNoIdBodyM with mediaType := "img" }

/-- A sample stored document. -/
def doc0 : PostDoc where
  mediaType := "img"
  url := some "/uploads/x.jpg"
  ytId := none
  comment := some "hi"
  natSize := none
  pxAtPlace := some 7
  userCenter := some (3, 4)
  deviceId := some "dev1"
  locationLng := 1
  locationLat := 2
  createdAt := 0
  updatedAt := 0
  idemKey := none

/-- A modular patch body that is absent everywhere. -/
def absentPatchR : PatchBodyR where
  comment := .absent
  pxAtPlace := .absent
  url := .absent
  mediaType := .absent
  natSizeObj := false
  natSizeW := none
  natSizeH := none

/-- A modular patch body carrying an explicit null pxAtPlace. -/
def nullPxPatchR : PatchBodyR :=
  { absentPatchR with pxAtPlace := .nullv }

/-- A modular patch body carrying mediaType yt. -/
def mediaYtPatchR : PatchBodyR :=
  { absentPatchR with mediaType := .str "yt" }

/-- A monolithic patch body that is absent everywhere. -/
def absentPatchM : PatchBodyM where
  comment := .absent
  pxAtPlace := .absent
  url := .absent
  ytId := .absent
  userCenter := .absent

/-- A monolithic patch body that is an explicit null everywhere. -/
def allNullPatchM : PatchBodyM where
  comment := .nullv
  pxAtPlace := .nullv
  url := .nullv
  ytId := .nullv
  userCenter := .nullv

/-! # Theorems -/

/-- Characterisation of the per-file sweep decision. -/
theorem sweepDeletes_iff (nowMs : Int) (name : String) :
    sweepDeletes nowMs name = true ↔
      ∃ t : Nat, parseTsPrefix name = some t ∧ (t : Int) < last3am nowMs := by
  unfold sweepDeletes
  cases hp : parseTsPrefix name <;> simp [hp]

/-- C3: Sweep(now) deletes a stored file name iff the name has a leading
decimal timestamp prefix followed by a dash and that timestamp is
strictly before the cutoff, where the cutoff is yesterday at 03:00 local
time when now is before today at 03:00, and today at 03:00 otherwise; a
name that does not match the timestamp-prefix convention is never
deleted. -/
theorem C3_sweep_deletes_iff (names : List String) (name : String) (nowMs : Int) :
    (name ∈ cleanupUploads nowMs names ↔
      name ∈ names ∧ ∃ t : Nat, parseTsPrefix name = some t ∧
        (t : Int) < (if nowMs < nowMs - nowMs % dayMs + 3 * hourMs
                     then nowMs - nowMs % dayMs + 3 * hourMs - dayMs
                     else nowMs - nowMs % dayMs + 3 * hourMs)) ∧
    (parseTsPrefix name = none → name ∉ cleanupUploads nowMs names) := by
  have hcut : (if nowMs < nowMs - nowMs % dayMs + 3 * hourMs
                     then nowMs - nowMs % dayMs + 3 * hourMs - dayMs
                     else nowMs - nowMs % dayMs + 3 * hourMs) = last3am nowMs := rfl
  rw [hcut]
  constructor
  · constructor
    · intro h
      have h2 := List.mem_filter.mp h
      exact ⟨h2.1, (sweepDeletes_iff nowMs name).mp h2.2⟩
    · intro ⟨hmem, ht⟩
      exact List.mem_filter.mpr ⟨hmem, (sweepDeletes_iff nowMs name).mpr ht⟩
  · intro hp h
    have h2 := List.mem_filter.mp h
    obtain ⟨t, ht, _⟩ := (sweepDeletes_iff nowMs name).mp h2.2
    rw [hp] at ht
    exact Option.noConfusion ht

/-- C3 witness: at a local clock reading of 2024-01-02 02:00 the cutoff
is 2024-01-01 03:00; a file stamped 2024-01-01 02:00 is deleted, a file
stamped 2024-01-01 04:00 is kept, and a name with no timestamp prefix is
kept. -/
theorem C3_sweep_witness :
    cleanupUploads 1704160800000
        ["1704074400000-a.jpg", "1704081600000-b.jpg", "notes.txt"]
      = ["1704074400000-a.jpg"] ∧
    ("notes.txt" ∉ cleanupUploads 1704160800000
        ["1704074400000-a.jpg", "1704081600000-b.jpg", "notes.txt"]) := by
  refine ⟨by decide, ?_⟩
  exact (C3_sweep_deletes_iff
    ["1704074400000-a.jpg", "1704081600000-b.jpg", "notes.txt"]
    "notes.txt" 1704160800000).2 (by decide)

/-- C8 counterexample: a malformed id (zzz) gets the distinct 400 bad id
reply, not the 404 not-found reply that the same empty store gives a
well-formed absent id, so a malformed id is not treated as not-found. -/
theorem C8_counterexample :
    getByIdRoute (fun _ => none) "zzz" = .badRequest "bad id" ∧
    getByIdRoute (fun _ => none) "0123456789ab0123456789ab" = .notFound ∧
    GetResult.badRequest "bad id" ≠ GetResult.notFound := by
  decide

/-- C8 amended: GetByID returns NotFoundError (404) only when the id is
well-formed and no post has it; a malformed id is rejected with a
distinct 400 ValidationError reply (bad id or invalid id) in both
variants, and a well-formed present id is returned. -/
theorem C8_amended (store : String → Option PostDoc) (id : String) :
    (isValidObjectId id = false →
      getByIdRoute store id = .badRequest "bad id" ∧
      getByIdMono store id = .badRequest "invalid id") ∧
    (isValidObjectId id = true → store id = none →
      getByIdRoute store id = .notFound ∧ getByIdMono store id = .notFound) ∧
    (∀ d, isValidObjectId id = true → store id = some d →
      getByIdRoute store id = .found d ∧ getByIdMono store id = .found d) := by
  refine ⟨fun hbad => ?_, fun hok hnone => ?_, fun d hok hsome => ?_⟩
  · unfold getByIdRoute getByIdMono
    rw [hbad]
    exact ⟨rfl, rfl⟩
  · unfold getByIdRoute getByIdMono
    rw [hok, hnone]
    exact ⟨rfl, rfl⟩
  · unfold getByIdRoute getByIdMono
    rw [hok, hsome]
    exact ⟨rfl, rfl⟩

/-- C8 witness: the amended theorem applied to an empty store at a
malformed id and at a well-formed hex id. -/
theorem C8_witness :
    getByIdRoute (fun _ => none) "zz" = .badRequest "bad id" ∧
    getByIdMono (fun _ => none) "ffffffffffffffffffffffff" = .notFound := by
  refine ⟨((C8_amended (fun _ => none) "zz").1 (by decide)).1, ?_⟩
  exact ((C8_amended (fun _ => none) "ffffffffffffffffffffffff").2.1
    (by decide) rfl).2

/-- C2 counterexample: the modular create route accepts mediaType yt
with no ytId and no url at valid coordinates, inserting a post with
ytId null and replying 201, instead of failing validation. -/
theorem C2_counterexample :
    (createRoute ytNoIdBody 3).isCreated = true ∧
    (createRouteFull [] ytNoIdBody 3).1.status = 201 ∧
    (createRouteFull [] ytNoIdBody 3).2.length = 1 := by
  decide

/-- C2 amended: the monolithic create rejects mediaType yt without a
truthy ytId and any other mediaType without a truthy url, persisting
nothing; the modular create rejects a missing url for non-yt mediaType,
but accepts mediaType yt without a ytId. -/
theorem C2_amended (bm : CreateBodyM) (b : CreateBodyR) (t : Int) :
    (bm.mediaType = "yt" → strFalsy bm.ytId = true →
      createMono bm t = .badRequest "ytId required for mediaType=yt") ∧
    (bm.mediaType ≠ "yt" → strFalsy bm.url = true →
      createMono bm t = .badRequest "url required for img/gif/vid") ∧
    (jsToLower ((b.mediaType.orNull).getD "img") ≠ "yt" → b.url.orNull = none →
      (createRoute b t).isCreated = false) := by
  refine ⟨fun h1 h2 => ?_, fun h1 h2 => ?_, fun h1 h2 => ?_⟩
  · unfold createMono
    rw [if_pos ⟨h1, h2⟩]
  · unfold createMono
    rw [if_neg (fun hc => h1 hc.1), if_pos ⟨h1, h2⟩]
  · unfold createRoute
    cases hlng : b.lng.toNumber with
    | none => rfl
    | some lng =>
      cases hlat : b.lat.toNumber with
      | none => rfl
      | some lat =>
        dsimp only
        by_cases hc : jsToLower ((b.mediaType.orNull).getD "img") ≠ "img" ∧
            jsToLower ((b.mediaType.orNull).getD "img") ≠ "yt" ∧
            jsToLower ((b.mediaType.orNull).getD "img") ≠ "vid" ∧
            jsToLower ((b.mediaType.orNull).getD "img") ≠ "gif"
        · rw [if_pos hc]
          rfl
        · rw [if_neg hc, if_pos ⟨h1, h2⟩]
          rfl

/-- C2 witness: the amended theorem applied to concrete monolithic
bodies missing the required media reference. -/
theorem C2_witness :
    createMono ytNoIdBodyM 4 = .badRequest "ytId required for mediaType=yt" ∧
    createMono imgNoUrlBodyM 4 = .badRequest "url required for img/gif/vid" := by
  refine ⟨(C2_amended ytNoIdBodyM ytNoIdBody 4).1 rfl rfl, ?_⟩
  exact (C2_amended imgNoUrlBodyM ytNoIdBody 4).2.1 (by decide) rfl

/-- Trimming never lengthens a character list. -/
theorem jsTrimList_length_le (cs : List Char) :
    (jsTrimList cs).length ≤ cs.length := by
  unfold jsTrimList
  calc ((cs.dropWhile isJsSpace).reverse.dropWhile isJsSpace).reverse.length
      = ((cs.dropWhile isJsSpace).reverse.dropWhile isJsSpace).length := by
        rw [List.length_reverse]
    _ ≤ (cs.dropWhile isJsSpace).reverse.length :=
        (List.dropWhile_sublist isJsSpace).length_le
    _ = (cs.dropWhile isJsSpace).length := by rw [List.length_reverse]
    _ ≤ cs.length := (List.dropWhile_sublist isJsSpace).length_le

/-- A slice to n code units has length at most n. -/
theorem jsSlice_length_le (n : Nat) (s : String) : (jsSlice n s).length ≤ n := by
  unfold jsSlice
  exact List.length_take_le n s.data

/-- The trim of a slice has the length of the slice as a bound. -/
theorem jsTrim_jsSlice_length_le (n : Nat) (s : String) :
    (jsTrim (jsSlice n s)).length ≤ n := by
  unfold jsTrim
  calc (String.mk (jsTrimList (jsSlice n s).data)).length
      = (jsTrimList (jsSlice n s).data).length := rfl
    _ ≤ (jsSlice n s).data.length := jsTrimList_length_le _
    _ ≤ n := List.length_take_le n s.data

/-- C10 counterexample: the modular create route persists the empty
string as the comment when the submitted comment is a single blank,
because it trims before slicing and never collapses the empty result to
null. -/
theorem C10_counterexample :
    ((createRoute blankCommentBody 0).docOf).map PostDoc.comment
      = some (some "") := by
  decide

/-- C10 amended: every persisted comment is null or at most 15
characters. The monolithic capComment helper never yields the empty
string (a comment that is empty after slicing and trimming becomes
null), and the monolithic patch only stores comments through it; the
modular route stores the trimmed slice directly, which is bounded by 15
characters but can be the empty string. -/
theorem C10_amended (o : Option String) (s : String) (doc : PostDoc)
    (pm : PatchBodyM) (t : Int) :
    (capComment o = none ∨
      ∃ r, capComment o = some r ∧ r.length ≤ 15 ∧ r ≠ "") ∧
    (jsSlice 15 (jsTrim s)).length ≤ 15 ∧
    ((patchMono doc pm t).comment = doc.comment ∨
      (patchMono doc pm t).comment = none ∨
      ∃ r, (patchMono doc pm t).comment = some r ∧ r.length ≤ 15 ∧ r ≠ "") := by
  have hcap : ∀ o2 : Option String, capComment o2 = none ∨
      ∃ r, capComment o2 = some r ∧ r.length ≤ 15 ∧ r ≠ "" := by
    intro o2
    unfold capComment
    by_cases he : (jsTrim (jsSlice 15 (o2.getD ""))).data.isEmpty
    · left
      rw [if_pos he]
    · right
      refine ⟨_, by rw [if_neg he], jsTrim_jsSlice_length_le 15 _, ?_⟩
      intro hr
      rw [hr] at he
      exact he rfl
  refine ⟨hcap o, jsSlice_length_le 15 (jsTrim s), ?_⟩
  obtain ⟨c, px, u, y, uc⟩ := pm
  cases c with
  | absent => exact Or.inl rfl
  | nullv =>
    rcases hcap none with h | ⟨r, hr, hl, hne⟩
    · exact Or.inr (Or.inl h)
    · exact Or.inr (Or.inr ⟨r, hr, hl, hne⟩)
  | str s2 =>
    rcases hcap (some s2) with h | ⟨r, hr, hl, hne⟩
    · exact Or.inr (Or.inl h)
    · exact Or.inr (Or.inr ⟨r, hr, hl, hne⟩)

/-- C10 witness: the amended theorem applied at a comment of sixteen
letters and at an all-null monolithic patch body. -/
theorem C10_witness :
    (capComment (some "abcdefghijklmnop") = none ∨
      ∃ r, capComment (some "abcdefghijklmnop") = some r ∧
        r.length ≤ 15 ∧ r ≠ "") ∧
    ((patchMono doc0 allNullPatchM 4).comment = doc0.comment ∨
      (patchMono doc0 allNullPatchM 4).comment = none ∨
      ∃ r, (patchMono doc0 allNullPatchM 4).comment = some r ∧
        r.length ≤ 15 ∧ r ≠ "") := by
  refine ⟨(C10_amended (some "abcdefghijklmnop") "" doc0 allNullPatchM 4).1, ?_⟩
  exact (C10_amended (some "abcdefghijklmnop") "" doc0 allNullPatchM 4).2.2

/-- C5 counterexample: the modular PATCH handler overwrites mediaType
when the partial update carries one, so a post created as img comes back
as yt. -/
theorem C5_counterexample :
    doc0.mediaType = "img" ∧
    (patchRoute doc0 mediaYtPatchR 5).mediaType = "yt" ∧
    ("yt" : String) ≠ "img" := by
  decide

/-- C5 amended: location is never mutable through either update path,
and mediaType is never mutable through the monolithic update path (its
schema admits no such field); through the modular update path mediaType
is preserved only when the partial update does not carry a mediaType
field, and is overwritten otherwise. -/
theorem C5_amended (doc : PostDoc) (p : PatchBodyR) (pm : PatchBodyM)
    (t : Int) :
    (patchRoute doc p t).locationLng = doc.locationLng ∧
    (patchRoute doc p t).locationLat = doc.locationLat ∧
    (patchMono doc pm t).mediaType = doc.mediaType ∧
    (patchMono doc pm t).locationLng = doc.locationLng ∧
    (patchMono doc pm t).locationLat = doc.locationLat ∧
    (p.mediaType = .absent → (patchRoute doc p t).mediaType = doc.mediaType) := by
  refine ⟨rfl, rfl, rfl, rfl, rfl, fun h => ?_⟩
  show (match p.mediaType with
    | .absent => doc.mediaType
    | .nullv => "img"
    | .str s => jsToLower (if s.data.isEmpty then "img" else s)) = doc.mediaType
  rw [h]

/-- C5 witness: the amended theorem applied to the sample document, both
at a patch body that does carry a mediaType (location still immutable)
and at an all-absent one (mediaType preserved). -/
theorem C5_witness :
    (patchRoute doc0 mediaYtPatchR 5).locationLng = doc0.locationLng ∧
    (patchMono doc0 allNullPatchM 5).mediaType = doc0.mediaType ∧
    (patchRoute doc0 absentPatchR 5).mediaType = doc0.mediaType := by
  refine ⟨(C5_amended doc0 mediaYtPatchR allNullPatchM 5).1, ?_, ?_⟩
  · exact (C5_amended doc0 mediaYtPatchR allNullPatchM 5).2.2.1
  · exact (C5_amended doc0 absentPatchR allNullPatchM 5).2.2.2.2.2 rfl

/-- C6 counterexample: through the modular PATCH handler an explicit
null pxAtPlace is not cleared to null: JS Number coerces null to 0,
which passes the isFinite guard, so the stored value becomes 0. -/
theorem C6_counterexample :
    doc0.pxAtPlace = some 7 ∧
    (patchRoute doc0 nullPxPatchR 5).pxAtPlace = some 0 ∧
    some (0 : Rat) ≠ none := by
  decide

/-- C6 amended: in both update paths an absent field keeps its prior
value (for the modular path: comment, url, pxAtPlace, mediaType, and
natSize when the natSize field is not a truthy object) and updatedAt is
set to the request time, strictly above its prior value whenever the
clock moved forward; in the monolithic path an explicit null clears each
updatable field to null, while in the modular path an explicit null
clears comment and url but stores 0 for pxAtPlace and img for
mediaType. -/
theorem C6_amended (doc : PostDoc) (pm : PatchBodyM) (p : PatchBodyR)
    (t : Int) :
    (pm.comment = .absent → (patchMono doc pm t).comment = doc.comment) ∧
    (pm.pxAtPlace = .absent → (patchMono doc pm t).pxAtPlace = doc.pxAtPlace) ∧
    (pm.url = .absent → (patchMono doc pm t).url = doc.url) ∧
    (pm.ytId = .absent → (patchMono doc pm t).ytId = doc.ytId) ∧
    (pm.userCenter = .absent → (patchMono doc pm t).userCenter = doc.userCenter) ∧
    (pm.comment = .nullv → (patchMono doc pm t).comment = none) ∧
    (pm.pxAtPlace = .nullv → (patchMono doc pm t).pxAtPlace = none) ∧
    (pm.url = .nullv → (patchMono doc pm t).url = none) ∧
    (pm.ytId = .nullv → (patchMono doc pm t).ytId = none) ∧
    (pm.userCenter = .nullv → (patchMono doc pm t).userCenter = none) ∧
    (patchMono doc pm t).updatedAt = t ∧
    (doc.updatedAt < t → doc.updatedAt < (patchMono doc pm t).updatedAt) ∧
    (p.comment = .absent → (patchRoute doc p t).comment = doc.comment) ∧
    (p.url = .absent → (patchRoute doc p t).url = doc.url) ∧
    (p.pxAtPlace = .absent → (patchRoute doc p t).pxAtPlace = doc.pxAtPlace) ∧
    (p.mediaType = .absent → (patchRoute doc p t).mediaType = doc.mediaType) ∧
    (p.natSizeObj = false → (patchRoute doc p t).natSize = doc.natSize) ∧
    (p.comment = .nullv → (patchRoute doc p t).comment = none) ∧
    (p.url = .nullv → (patchRoute doc p t).url = none) ∧
    (p.pxAtPlace = .nullv → (patchRoute doc p t).pxAtPlace = some 0) ∧
    (p.mediaType = .nullv → (patchRoute doc p t).mediaType = "img") ∧
    (patchRoute doc p t).updatedAt = t ∧
    (doc.updatedAt < t → doc.updatedAt < (patchRoute doc p t).updatedAt) := by
  obtain ⟨c, px, u, y, uc⟩ := pm
  obtain ⟨c2, px2, u2, mt2, no2, nw2, nh2⟩ := p
  refine ⟨?_, ?_, ?_, ?_, ?_, ?_, ?_, ?_, ?_, ?_, rfl, fun hclk => hclk,
    ?_, ?_, ?_, ?_, ?_, ?_, ?_, ?_, ?_, rfl, fun hclk => hclk⟩
  all_goals intro hx
  all_goals subst hx
  all_goals rfl

/-- C6 witness: the amended theorem applied to the sample document, an
all-null monolithic body and a modular body whose only present field is
an explicit null pxAtPlace, at time 5. -/
theorem C6_witness :
    (patchMono doc0 allNullPatchM 5).pxAtPlace = none ∧
    (patchRoute doc0 nullPxPatchR 5).pxAtPlace = some 0 ∧
    (patchRoute doc0 nullPxPatchR 5).mediaType = doc0.mediaType ∧
    (patchRoute doc0 nullPxPatchR 5).natSize = doc0.natSize ∧
    (patchMono doc0 allNullPatchM 5).updatedAt = 5 ∧
    doc0.updatedAt < (patchRoute doc0 nullPxPatchR 5).updatedAt := by
  obtain ⟨h1, h2, h3, h4, h5, h6, h7, h8, h9, h10, h11, h12, h13, h14, h15,
    h16, h17, h18, h19, h20, h21, h22, h23⟩ :=
    C6_amended doc0 allNullPatchM nullPxPatchR 5
  exact ⟨h7 rfl, h20 rfl, h16 rfl, h17 rfl, h11, h23 (by decide)⟩

/-- C7 counterexample: the modular upload route stores a file for any
declared mime type, deriving the extension exe from the filename; the
disallowed mime is not rejected with 415. -/
theorem C7_counterexample :
    uploadRoute true (some "a.exe") = .stored "exe" ∧
    ALLOW "application/x-msdownload" = false ∧
    (uploadRoute true (some "a.exe")).isStored = true := by
  decide

/-- C7 amended: the monolithic upload resolves the storage extension
solely from the mime allow-list (jpeg to jpg, png, gif, webp, mp4, webm,
ogg to ogv) and rejects any other mime with a 415 before storing
anything; the modular upload route ignores the mime type entirely,
deriving the extension from the client filename and storing every
file. -/
theorem C7_amended (mime : String) (fn : Option String) :
    (ALLOW mime = false → uploadMono true (some mime) = .unsupported mime) ∧
    (∀ e, EXT mime = some e → uploadMono true (some mime) = .stored e) ∧
    EXT "image/jpeg" = some "jpg" ∧ EXT "image/png" = some "png" ∧
    EXT "image/gif" = some "gif" ∧ EXT "image/webp" = some "webp" ∧
    EXT "video/mp4" = some "mp4" ∧ EXT "video/webm" = some "webm" ∧
    EXT "video/ogg" = some "ogv" ∧
    (uploadRoute true fn).isStored = true := by
  refine ⟨fun hall => ?_, fun e he => ?_, by decide, by decide, by decide,
    by decide, by decide, by decide, by decide, rfl⟩
  · simp [uploadMono, hall]
  · have hall : ALLOW mime = true := by
      unfold ALLOW
      rw [he]
      rfl
    simp [uploadMono, hall, he]

/-- C7 witness: the amended theorem applied at a pdf mime and at the ogg
video mime. -/
theorem C7_witness :
    uploadMono true (some "application/pdf") = .unsupported "application/pdf" ∧
    uploadMono true (some "video/ogg") = .stored "ogv" := by
  refine ⟨(C7_amended "application/pdf" none).1 (by decide), ?_⟩
  exact (C7_amended "video/ogg" none).2.1 "ogv" (by decide)

/-- A successfully created document carries the idemKey of its request
body and the request timestamp. -/
theorem createRoute_created_fields (b : CreateBodyR) (t : Int) (d : PostDoc)
    (h : createRoute b t = .created d) :
    d.idemKey = b.idemKey.asString ∧ d.createdAt = t := by
  unfold createRoute at h
  cases hlng : b.lng.toNumber with
  | none =>
    rw [hlng] at h
    exact absurd h (by simp)
  | some lng =>
    cases hlat : b.lat.toNumber with
    | none =>
      rw [hlng, hlat] at h
      exact absurd h (by simp)
    | some lat =>
      rw [hlng, hlat] at h
      dsimp only at h
      split at h
      · exact absurd h (by simp)
      · split at h
        · exact absurd h (by simp)
        · injection h with h2
          subst h2
          exact ⟨rfl, rfl⟩

/-- C1 counterexample: replaying the same present idempotency key makes
the second Create fail, but the reply is HTTP 500 with the body label
Internal Server Error (the storage code 11000 in the code field), not a
409 conflict: the duplicate is surfaced through a generic
server-error-status reply. -/
theorem C1_counterexample :
    (createRouteFull [] (imgBody (.str "key1")) 0).1.status = 201 ∧
    (createRouteFull (createRouteFull [] (imgBody (.str "key1")) 0).2
        (imgBody (.str "key1")) 1).1
      = ⟨500, some "11000", some "Internal Server Error"⟩ ∧
    (500 : Nat) ≠ 409 := by
  decide

/-- C1 amended: for two Create calls carrying the same present
idempotency key over any store not yet holding it, exactly one insert
succeeds (the store gains exactly one document with that key) and the
other call fails with the duplicate-key reply: HTTP 500 carrying the
storage code 11000 in its body, which distinguishes it from the generic
catch-all server reply, though not as a 409 conflict status. -/
theorem C1_amended (store : List PostDoc) (b c : CreateBodyR) (t1 t2 : Int)
    (k : String) (hb : b.idemKey = .str k) (hc : c.idemKey = .str k)
    (hbok : (createRoute b t1).isCreated = true)
    (hcok : (createRoute c t2).isCreated = true)
    (hfresh : hasIdemKey store k = false) :
    (createRouteFull store b t1).1.status = 201 ∧
    (createRouteFull (createRouteFull store b t1).2 c t2).1.status = 500 ∧
    (createRouteFull (createRouteFull store b t1).2 c t2).1.code = some "11000" ∧
    (createRouteFull (createRouteFull store b t1).2 c t2).2
      = (createRouteFull store b t1).2 ∧
    ((createRouteFull (createRouteFull store b t1).2 c t2).2.filter
      (fun d => d.idemKey = some k)).length = 1 := by
  obtain ⟨d1, hd1⟩ : ∃ d1, createRoute b t1 = .created d1 := by
    cases hx : createRoute b t1 with
    | badRequest m =>
      rw [hx] at hbok
      exact absurd hbok (by simp [CreateResult.isCreated])
    | created d => exact ⟨d, rfl⟩
  obtain ⟨d2, hd2⟩ : ∃ d2, createRoute c t2 = .created d2 := by
    cases hx : createRoute c t2 with
    | badRequest m =>
      rw [hx] at hcok
      exact absurd hcok (by simp [CreateResult.isCreated])
    | created d => exact ⟨d, rfl⟩
  have hk1 : d1.idemKey = some k := by
    rw [(createRoute_created_fields b t1 d1 hd1).1, hb]
    rfl
  have hk2 : d2.idemKey = some k := by
    rw [(createRoute_created_fields c t2 d2 hd2).1, hc]
    rfl
  have hins1 : insertPost store d1 = .ok (store ++ [d1]) := by
    simp [insertPost, hk1, hfresh]
  have hfull1 : createRouteFull store b t1 = (⟨201, none, none⟩, store ++ [d1]) := by
    simp [createRouteFull, hd1, hins1]
  have hkey1 : hasIdemKey (store ++ [d1]) k = true := by
    unfold hasIdemKey
    rw [List.any_append]
    have : [d1].any (fun d => d.idemKey = some k) = true := by simp [hk1]
    rw [this, Bool.or_true]
  have hins2 : insertPost (store ++ [d1]) d2 = .error () := by
    simp [insertPost, hk2, hkey1]
  have hfull2 : createRouteFull (store ++ [d1]) c t2
      = (⟨500, some "11000", some "Internal Server Error"⟩, store ++ [d1]) := by
    simp [createRouteFull, hd2, hins2]
  rw [hfull1]
  dsimp only
  rw [hfull2]
  refine ⟨rfl, rfl, rfl, rfl, ?_⟩
  dsimp only
  rw [List.filter_append]
  have hnil : store.filter (fun d => decide (d.idemKey = some k)) = [] := by
    rw [List.filter_eq_nil_iff]
    intro a ha hpa
    have hany : store.any (fun d => decide (d.idemKey = some k)) = true :=
      List.any_eq_true.mpr ⟨a, ha, hpa⟩
    unfold hasIdemKey at hfresh
    rw [hfresh] at hany
    exact Bool.noConfusion hany
  rw [hnil]
  simp [hk1]

/-- C1 witness: the amended theorem applied to two identical image
create bodies with idempotency key key1 over the empty store. -/
theorem C1_witness :
    (createRouteFull [] (imgBody (.str "key1")) 0).1.status = 201 ∧
    (createRouteFull (createRouteFull [] (imgBody (.str "key1")) 0).2
        (imgBody (.str "key1")) 1).1.status = 500 ∧
    ((createRouteFull (createRouteFull [] (imgBody (.str "key1")) 0).2
        (imgBody (.str "key1")) 1).2.filter
      (fun d => d.idemKey = some "key1")).length = 1 := by
  have h := C1_amended [] (imgBody (.str "key1")) (imgBody (.str "key1")) 0 1
    "key1" rfl rfl (by decide) (by decide) rfl
  exact ⟨h.1, h.2.1, h.2.2.2.2⟩

/-- C4 counterexample: the monolithic near handler applies no lower
clamp: a requested radius of 10 stays 10 instead of the claimed clamp to
50, and a requested limit of minus 7 yields an effective cursor limit of
minus 7 (up to 7 rows, here exactly 7), exceeding the claimed clamped
limit of 1. -/
theorem C4_counterexample :
    nearRadiusMono (.num 10) = 10 ∧ (10 : Rat) < 50 ∧
    nearLimitMono (.int (-7)) = -7 ∧
    (nearMono (List.replicate 8 doc0) (fun _ => 0) (.num 10) (.int (-7))).length
      = 7 := by
  decide

/-- C4 amended: the modular near handler clamps the radius into 50 to
5000 and the limit into 1 to 200, and its rows lie within the effective
radius and count; the monolithic near handler only caps the radius above
at 5000 (default 1609) and the limit above at 200 (default 50), its rows
lying within its own effective radius and count. -/
theorem C4_amended (posts : List PostDoc) (dist : PostDoc → Rat)
    (lngQ latQ rq : NumIn) (lq : IntIn) (out : List PostDoc)
    (hr : nearRoute posts dist lngQ latQ rq lq = .rows out) :
    (50 ≤ nearRadiusRoute rq ∧ nearRadiusRoute rq ≤ 5000) ∧
    (1 ≤ nearLimitRoute lq ∧ nearLimitRoute lq ≤ 200) ∧
    (∀ p ∈ out, dist p ≤ nearRadiusRoute rq) ∧
    out.length ≤ (nearLimitRoute lq).natAbs ∧
    nearRadiusMono rq ≤ 5000 ∧
    (∀ p ∈ nearMono posts dist rq lq, dist p ≤ nearRadiusMono rq) ∧
    (nearMono posts dist rq lq).length ≤ (nearLimitMono lq).natAbs := by
  have hout : out
      = (sortNewestFirst (posts.filter
          (fun p => dist p ≤ nearRadiusRoute rq))).take
        (nearLimitRoute lq).natAbs := by
    unfold nearRoute at hr
    cases hlng : lngQ.toNumber with
    | none =>
      rw [hlng] at hr
      exact absurd hr (by simp)
    | some lng =>
      cases hlat : latQ.toNumber with
      | none =>
        rw [hlng, hlat] at hr
        exact absurd hr (by simp)
      | some lat =>
        rw [hlng, hlat] at hr
        dsimp only at hr
        injection hr with hr
        exact hr.symm
  refine ⟨⟨le_min (by norm_num) (le_max_left 50 _), min_le_left 5000 _⟩,
    ⟨le_min (by norm_num) (le_max_left 1 _), min_le_left 200 _⟩,
    ?_, ?_, min_le_right _ 5000, ?_, ?_⟩
  · intro p hp
    rw [hout] at hp
    have h1 : p ∈ sortNewestFirst (posts.filter
        (fun p => dist p ≤ nearRadiusRoute rq)) := List.take_subset _ _ hp
    have h2 : p ∈ posts.filter (fun p => dist p ≤ nearRadiusRoute rq) :=
      (List.mem_insertionSort createdDesc).mp h1
    exact of_decide_eq_true (List.mem_filter.mp h2).2
  · rw [hout]
    exact List.length_take_le _ _
  · intro p hp
    unfold nearMono at hp
    have h1 := List.take_subset _ _ hp
    have h2 := (List.mem_insertionSort (distAsc dist)).mp h1
    exact of_decide_eq_true (List.mem_filter.mp h2).2
  · unfold nearMono
    exact List.length_take_le _ _

/-- C4 witness: the amended theorem applied at a one-post store with a
trivial distance function and an absent radius and limit. -/
theorem C4_witness :
    (50 ≤ nearRadiusRoute .absent ∧ nearRadiusRoute .absent ≤ 5000) ∧
    (nearMono [doc0] (fun _ => 0) .absent .absent).length
      ≤ (nearLimitMono .absent).natAbs := by
  have h := C4_amended [doc0] (fun _ => 0) (.num 1) (.num 2) .absent .absent
    [doc0] (by decide)
  exact ⟨h.1, h.2.2.2.2.2.2⟩

/-- C9 counterexample: the modular recent handler applies no createdAt
filter at all: a post created at epoch 0 is returned although it is far
older than the retention cutoff of any modern reading of the clock,
here 2024-01-02 02:00. -/
theorem C9_counterexample :
    recentRoute [doc0] (.absent) = [doc0] ∧
    doc0.createdAt < last3am 1704160800000 := by
  decide

/-- C9 amended: the monolithic recent handler returns only posts created
at or after the last3am cutoff, newest first, with at most the effective
limit of rows (request capped above at 400, default 200); the modular
recent handler also returns newest first with at most 200 rows (limit
clamped into 1 to 200, default 9) but applies no cutoff filter. -/
theorem C9_amended (posts : List PostDoc) (lq : IntIn) (nowMs : Int) :
    (∀ p ∈ recentMono posts lq nowMs, last3am nowMs ≤ p.createdAt) ∧
    List.Sorted createdDesc (recentMono posts lq nowMs) ∧
    (recentMono posts lq nowMs).length ≤ (min (jsOrInt lq 200) 400).natAbs ∧
    List.Sorted createdDesc (recentRoute posts lq) ∧
    (recentRoute posts lq).length ≤ 200 := by
  refine ⟨?_, ?_, ?_, ?_, ?_⟩
  · intro p hp
    unfold recentMono at hp
    have h1 := List.take_subset _ _ hp
    have h2 := (List.mem_insertionSort createdDesc).mp h1
    exact of_decide_eq_true (List.mem_filter.mp h2).2
  · unfold recentMono
    exact List.Pairwise.take (List.sorted_insertionSort createdDesc _)
  · unfold recentMono
    exact List.length_take_le _ _
  · unfold recentRoute
    exact List.Pairwise.take (List.sorted_insertionSort createdDesc _)
  · unfold recentRoute
    dsimp only
    have h1 := List.length_take_le
      (min 200 (max 1 (jsOrInt lq 9))).natAbs (sortNewestFirst posts)
    have h2 : 1 ≤ min 200 (max 1 (jsOrInt lq 9)) :=
      le_min (by norm_num) (le_max_left 1 _)
    have h3 : min 200 (max 1 (jsOrInt lq 9)) ≤ 200 := min_le_left 200 _
    omega

/-- C9 witness: the amended theorem applied at a one-post store with an
absent limit at the 2024-01-02 02:00 clock reading. -/
theorem C9_witness :
    (recentMono [doc0] (.absent) 1704160800000).length
      ≤ (min (jsOrInt .absent 200) 400).natAbs ∧
    (recentRoute [doc0] (.absent)).length ≤ 200 := by
  have h := C9_amended [doc0] .absent 1704160800000
  exact ⟨h.2.2.1, h.2.2.2.2⟩

end LalosMapp
